import Mathlib

/-!
Verification of the grip live-refresh core (`src/grip/app.py`).

We shallowly embed the per-connection refresh generator
(`Grip._render_refresh.gen`, app.py lines 187-223), the surrounding
request handler `Grip._render_refresh` (lines 170-225), the rate-limit
error page (lines 227-231) and the server lifecycle in `Grip.run`
(lines 317-357).

The Change Detector (`grip.readers`, not part of the sources at hand) is
abstracted, per its contract, into per-poll observations: at each wake-up
the loop observes the shutdown flag, the result of `last_updated`, of
`is_binary`, of `read` and of `renderer.render`.  Version Markers are
opaque values compared only for equality; we use `Nat`.
-/

deriving instance DecidableEq for Except

namespace Grip

/-- An event yielded on the `text/event-stream` channel:
`data: {"updating": true}` or `data: {"content": <html>}` frames. -/
inductive Event where
  | updating
  | content (html : String)
deriving DecidableEq, Repr

/-- How a refresh session's generator ends (or fails to end within the
observed trace). -/
inductive Outcome where
  /-- The generator returned cleanly (loop condition false, `return`,
  or binary asset / `ReadmeNotFoundError` from `read`). -/
  | terminated
  /-- A `ReadmeNotFoundError` raised by `reader.last_updated` propagated out
  of the generator (it is caught nowhere in `gen`; only `GeneratorExit`
  is). -/
  | raisedNotFound
  /-- The call `renderer.render` raised an HTTPError with status 403 and the
  generator called `abort(403)`, raising a Forbidden condition. -/
  | raisedHTTP403
  /-- The call `renderer.render` raised an HTTPError with another status, re-raised
  uncaught. -/
  | raisedHTTPOther (status : Nat)
  /-- The supplied observation trace was exhausted with the loop still
  polling (the session is still open). -/
  | ranOut
deriving DecidableEq, Repr

/-- Modelled from the spec: the Change Detector contract
(`last_updated`, `read`, `is_binary` of `grip.readers`, whose source is
not at hand).  Each call either fails with a NotFound condition when the
underlying resource no longer exists, or returns its value.  A `PollObs`
records, for one wake-up of the polling loop, the observed shutdown flag
and the results the reader and renderer would return at that instant. -/
structure PollObs where
  /-- Value of `shutdown_event.is_set()` at the `while` condition check. -/
  shutdownSet : Bool
  /-- Result of `reader.last_updated(subpath)`: NotFound or a marker. -/
  lastUpdated : Except Unit Nat
  /-- Result of `reader.is_binary(subpath)`. -/
  isBinary : Bool
  /-- Result of `reader.read(subpath)`: NotFound or the text. -/
  readResult : Except Unit String
  /-- Result of `renderer.render(text)`: an HTTPError status, or HTML. -/
  renderResult : Except Nat String
deriving DecidableEq, Repr

/-- Result of running the generator over a finite observation trace:
the events yielded, the console lines printed, and how it ended. -/
structure GenResult where
  events : List Event
  console : List String
  outcome : Outcome
deriving DecidableEq, Repr

/-- The console notification printed when a change is detected
(app.py lines 199-201). -/
def changeMessage (filename : String) : String :=
  " * Change detected in " ++ filename ++ ", refreshing"

/-- The polling loop of `Grip._render_refresh.gen` (app.py lines
190-221), run over a finite trace of per-poll observations.  Each
iteration: check the shutdown flag, sleep, query `last_updated`
(a NotFound here propagates uncaught), `continue` if unchanged, update
the baseline, print unless quiet, yield the updating event, return if
now binary, read (NotFound returns silently), render (HTTPError 403 →
`abort(403)`, otherwise re-raise), yield the content event, loop. -/
def genLoop (quiet : Bool) (filename : String) (last : Nat) :
    List PollObs → GenResult
  | [] => ⟨[], [], .ranOut⟩
  | o :: rest =>
    if o.shutdownSet then ⟨[], [], .terminated⟩
    else
      match o.lastUpdated with
      | .error _ => ⟨[], [], .raisedNotFound⟩
      | .ok updated =>
        if updated = last then genLoop quiet filename last rest
        else
          let console := if quiet then [] else [changeMessage filename]
          if o.isBinary then ⟨[.updating], console, .terminated⟩
          else
            match o.readResult with
            | .error _ => ⟨[.updating], console, .terminated⟩
            | .ok _ =>
              match o.renderResult with
              | .error status =>
                if status = 403 then ⟨[.updating], console, .raisedHTTP403⟩
                else ⟨[.updating], console, .raisedHTTPOther status⟩
              | .ok html =>
                let r := genLoop quiet filename updated rest
                ⟨.updating :: .content html :: r.events,
                 console ++ r.console, r.outcome⟩

/-- The whole generator `gen` (app.py lines 187-223): first the baseline
query `last_updated = self.reader.last_updated(subpath)` (line 188,
outside every `try` except the transport's), then the loop. -/
def gen (quiet : Bool) (filename : String) (baseline : Except Unit Nat)
    (trace : List PollObs) : GenResult :=
  match baseline with
  | .error _ => ⟨[], [], .raisedNotFound⟩
  | .ok last => genLoop quiet filename last trace

/-- The response of the refresh endpoint `Grip._render_refresh`
(app.py lines 170-225). -/
inductive RefreshResponse where
  /-- Call to `abort(404)`: autorefresh disabled. -/
  | abort404
  /-- Redirect to the normalized subpath. -/
  | redirect (target : String)
  /-- The empty-string return: no run active or shutdown already signalled. -/
  | emptyBody
  /-- A `text/event-stream` response streaming the generator. -/
  | stream (r : GenResult)
deriving DecidableEq, Repr

/-- Environment of one refresh request: the app flags, what the reader
answers for this subpath, the `_shutdown_event` attribute at dispatch
(`none` when the attribute is `None`, `some b` when an event exists with
`is_set() = b`), the baseline `last_updated` answer, and the per-poll
observations the session would make. -/
structure RefreshEnv where
  autorefresh : Bool
  quiet : Bool
  subpath : String
  normalized : String
  filename : String
  shutdownEvent : Option Bool
  baseline : Except Unit Nat
  trace : List PollObs
deriving DecidableEq, Repr

/-- The handler `Grip._render_refresh` (app.py lines 170-225): 404 when autorefresh
is disabled; redirect when normalization changes the subpath; empty body
when `self._shutdown_event` is `None` or already set; otherwise a
streaming response running `gen`. -/
def render_refresh (e : RefreshEnv) : RefreshResponse :=
  if !e.autorefresh then .abort404
  else if e.normalized != e.subpath then .redirect e.normalized
  else
    match e.shutdownEvent with
    | none => .emptyBody
    | some true => .emptyBody
    | some false => .stream (gen e.quiet e.filename e.baseline e.trace)

/-- A page template rendered by `render_template`. -/
inductive Page where
  | limit (is_authenticated : Bool)
deriving DecidableEq, Repr

/-- An HTTP response carrying a page and a status code. -/
structure HttpResponse where
  page : Page
  status : Nat
deriving DecidableEq, Repr

/-- The handler `Grip._render_rate_limit_page` (app.py lines 227-231): renders
`limit.html` with `is_authenticated=False` and status 403. -/
def render_rate_limit_page : HttpResponse :=
  ⟨.limit false, 403⟩

/-- The handler registered for HTTP 403 by
`self.errorhandler(403)(self._render_rate_limit_page)` (app.py line
121). -/
def errorHandler403 : HttpResponse :=
  render_rate_limit_page

/-! ## Server lifecycle (`Grip.run`, app.py lines 317-357) -/

/-- The shutdown-relevant state of a `Grip` instance:
`self._shutdown_event` is either `None` (no run active) or an Event whose
`is_set()` is the carried boolean, plus the `quiet` flag. -/
structure GripState where
  shutdownEvent : Option Bool
  quiet : Bool
deriving DecidableEq, Repr

/-- The externally visible actions `Grip.run` performs, in order. -/
inductive RunAction where
  /-- A fresh `threading.Event()` stored into `self._shutdown_event` (cleared). -/
  | createSignal
  /-- Call to `start_browser_when_ready(...)` spawning the browser helper. -/
  | spawnBrowser
  /-- The blocking `super().run(...)` request-serving loop, until it
  returns. -/
  | serveLoop
  /-- The shutting-down console line printed unless quiet. -/
  | printShutdown
  /-- Call to `self._shutdown_event.set()`. -/
  | setSignal
  /-- Call to `browser_thread.join()`. -/
  | joinBrowser
  /-- Assignment of `None` to `self._shutdown_event`. -/
  | clearSignal
deriving DecidableEq, Repr

/-- Result of a call to `Grip.run`. -/
inductive RunResult where
  /-- An `AlreadyRunningError` raised inside the `_run_mutex` block; carries
  the instance state at the raise. -/
  | alreadyRunning (state : GripState)
  /-- The call ran to completion: final state and the ordered actions
  performed. -/
  | ok (final : GripState) (actions : List RunAction)
deriving DecidableEq, Repr

/-- The method `Grip.run` (app.py lines 317-357).  Under `_run_mutex`: raise
`AlreadyRunningError` if `self._shutdown_event` is truthy (any Event
object is), else install a fresh cleared Event.  Then optionally spawn
the browser helper, run the blocking serving loop until it returns,
print unless quiet, set the shutdown event, join the browser thread if
one was spawned, and reset `self._shutdown_event` to `None`. -/
def run (openBrowser : Bool) (s : GripState) : RunResult :=
  match s.shutdownEvent with
  | some _ => .alreadyRunning s
  | none =>
    .ok { s with shutdownEvent := none }
      ([.createSignal]
        ++ (if openBrowser then [.spawnBrowser] else [])
        ++ [.serveLoop]
        ++ (if s.quiet then [] else [.printShutdown])
        ++ [.setSignal]
        ++ (if openBrowser then [.joinBrowser] else [])
        ++ [.clearSignal])

/-! ## Healthy sessions: traces where every collaborator call succeeds -/

/-- One wake-up of a session in which nothing goes wrong: the shutdown
flag is clear, `last_updated` answers with `marker`, the resource is
textual, `read` returns `text` and the renderer returns `html`. -/
structure LiveObs where
  marker : Nat
  text : String
  html : String
deriving DecidableEq, Repr

/-- The `PollObs` a `LiveObs` induces. -/
def LiveObs.toPoll (q : LiveObs) : PollObs :=
  ⟨false, .ok q.marker, false, .ok q.text, .ok q.html⟩

/-- The rendered payloads at exactly those polls whose observed marker
differs from the running baseline: one entry per content mutation the
session detects (mutations spaced at least one poll apart are each
observed at their own poll). -/
def mutations (last : Nat) : List LiveObs → List String
  | [] => []
  | q :: rest =>
    if q.marker = last then mutations last rest
    else q.html :: mutations q.marker rest

theorem mutations_nil_of_unchanged (last : Nat) (qs : List LiveObs)
    (h : ∀ q ∈ qs, q.marker = last) : mutations last qs = [] := by
  induction qs with
  | nil => rfl
  | cons q rest ih =>
    have hq : q.marker = last := h q (List.mem_cons_self q rest)
    simp only [mutations, hq, if_pos rfl]
    exact ih fun p hp => h p (List.mem_cons_of_mem q hp)

theorem genLoop_live_events (quiet : Bool) (fn : String) (last : Nat)
    (qs : List LiveObs) :
    (genLoop quiet fn last (qs.map LiveObs.toPoll)).events
      = (mutations last qs).flatMap fun h => [Event.updating, Event.content h] := by
  induction qs generalizing last with
  | nil => rfl
  | cons q rest ih =>
    by_cases hq : q.marker = last
    · simp [genLoop, LiveObs.toPoll, mutations, hq, ih]
    · simp [genLoop, LiveObs.toPoll, mutations, hq, ih]

/-- C1: over any healthy trace (no shutdown, reader answers, resource
textual, renders succeed), the refresh session's event stream is exactly
one ("updating", "content") pair per detected marker change, the
"updating" frame immediately preceding its "content" frame, in mutation
order; and when no marker ever differs from the baseline the session
emits no events at all (app.py lines 190-221). -/
theorem session_emits_matched_pairs (quiet : Bool) (fn : String)
    (last : Nat) (qs : List LiveObs) :
    (genLoop quiet fn last (qs.map LiveObs.toPoll)).events
        = (mutations last qs).flatMap (fun h => [Event.updating, Event.content h])
      ∧ (genLoop quiet fn last (qs.map LiveObs.toPoll)).events.length
          = 2 * (mutations last qs).length
      ∧ ((∀ q ∈ qs, q.marker = last) →
          (genLoop quiet fn last (qs.map LiveObs.toPoll)).events = []) := by
  refine ⟨genLoop_live_events quiet fn last qs, ?_, ?_⟩
  · rw [genLoop_live_events quiet fn last qs]
    induction mutations last qs with
    | nil => rfl
    | cons m ms ih => simp [ih]; omega
  · intro h
    rw [genLoop_live_events quiet fn last qs,
      mutations_nil_of_unchanged last qs h]
    rfl

/-- Witness for C1 at a concrete trace: baseline marker 0, four polls
observing markers 0, 1, 1, 2 (two mutations) produce exactly the two
matched pairs; and a no-mutation trace produces no events. -/
theorem session_emits_matched_pairs_witness :
    (genLoop false "README.md" 0 (List.map LiveObs.toPoll
        [⟨0, "a", "A"⟩, ⟨1, "b", "B"⟩, ⟨1, "c", "C"⟩, ⟨2, "d", "D"⟩])).events
      = [Event.updating, Event.content "B", Event.updating, Event.content "D"]
    ∧ (genLoop false "README.md" 7 (List.map LiveObs.toPoll
        [⟨7, "a", "A"⟩, ⟨7, "b", "B"⟩])).events = [] :=
  ⟨((session_emits_matched_pairs false "README.md" 0
      [⟨0, "a", "A"⟩, ⟨1, "b", "B"⟩, ⟨1, "c", "C"⟩, ⟨2, "d", "D"⟩]).1).trans
        (by decide),
   (session_emits_matched_pairs false "README.md" 7
      [⟨7, "a", "A"⟩, ⟨7, "b", "B"⟩]).2.2 (by decide)⟩

/-- C2 counterexample: with the document removed before the first poll
(`last_updated` raises NotFound, app.py line 194), the session does end
with no further events, but it ends by the NotFound error escaping the
generator — only `GeneratorExit` is caught (line 222) — not by a clean
return, so an error IS propagated to the client transport. -/
theorem removal_silent_counterexample :
    (genLoop false "README.md" 0
        [⟨false, .error (), false, .error (), .error 0⟩]).outcome
      = Outcome.raisedNotFound
    ∧ Outcome.raisedNotFound ≠ Outcome.terminated := by
  decide

/-- C2 amended: if the watched document is removed between two polls so
that `last_updated` raises NotFound, the session yields no further
events and no console output, and terminates by the NotFound error
propagating out of the generator uncaught (app.py line 194 sits outside
the inner `try` blocks; the surrounding `try` catches only
`GeneratorExit`). -/
theorem removal_notfound_propagates (quiet : Bool) (fn : String)
    (last : Nat) (o : PollObs) (rest : List PollObs)
    (h1 : o.shutdownSet = false) (h2 : o.lastUpdated = .error ()) :
    genLoop quiet fn last (o :: rest) = ⟨[], [], .raisedNotFound⟩ := by
  simp [genLoop, h1, h2]

/-- Witness for the amended C2 at a concrete observation. -/
theorem removal_notfound_propagates_witness :
    genLoop true "f" 3 [⟨false, .error (), true, .error (), .error 500⟩]
      = ⟨[], [], .raisedNotFound⟩ :=
  removal_notfound_propagates true "f" 3
    ⟨false, .error (), true, .error (), .error 500⟩ [] rfl rfl

/-- C3: once a poll observes the shutdown flag set, the session
terminates at that very poll — the first wake-up after the signal, i.e.
within one poll interval — yielding nothing from that poll on, and the
whole run is unaffected by any later observations; in particular the
session is not still open (`ranOut`) at the end of such a trace
(app.py line 190). -/
theorem shutdown_within_one_poll (quiet : Bool) (fn : String)
    (last : Nat) (pre : List PollObs) (o : PollObs) (rest : List PollObs)
    (h : o.shutdownSet = true) :
    genLoop quiet fn last (pre ++ o :: rest)
        = genLoop quiet fn last (pre ++ [o])
    ∧ (genLoop quiet fn last (pre ++ [o])).outcome ≠ Outcome.ranOut := by
  induction pre generalizing last with
  | nil =>
    constructor
    · simp [genLoop, h]
    · simp [genLoop, h]
  | cons p pre ih =>
    simp only [List.cons_append, genLoop]
    by_cases hs : p.shutdownSet = true
    · simp [hs]
    · simp only [if_neg hs]
      cases hlu : p.lastUpdated with
      | error e => exact ⟨rfl, by simp⟩
      | ok updated =>
        by_cases hu : updated = last
        · simpa [hu] using ih last
        · simp only [if_neg hu]
          by_cases hb : p.isBinary = true
          · simp [hb]
          · simp only [if_neg hb]
            cases hr : p.readResult with
            | error e => exact ⟨rfl, by simp⟩
            | ok text =>
              cases hrr : p.renderResult with
              | error status =>
                by_cases h403 : status = 403
                · simp [h403]
                · simp [h403]
              | ok html =>
                obtain ⟨heq, hout⟩ := ih updated
                exact ⟨by simp [List.append_eq, heq],
                  by simpa [List.append_eq] using hout⟩

/-- Witness for C3: the poll after the signal ends the session, and a
long tail of further observations changes nothing. -/
theorem shutdown_within_one_poll_witness :
    genLoop false "README.md" 0
        ([⟨false, .ok 0, false, .ok "t", .ok "h"⟩]
          ++ ⟨true, .ok 9, false, .ok "t", .ok "h"⟩
            :: [⟨false, .ok 9, false, .ok "t", .ok "h"⟩])
      = genLoop false "README.md" 0
          ([⟨false, .ok 0, false, .ok "t", .ok "h"⟩]
            ++ [⟨true, .ok 9, false, .ok "t", .ok "h"⟩]) :=
  (shutdown_within_one_poll false "README.md" 0
    [⟨false, .ok 0, false, .ok "t", .ok "h"⟩]
    ⟨true, .ok 9, false, .ok "t", .ok "h"⟩
    [⟨false, .ok 9, false, .ok "t", .ok "h"⟩] rfl).1

/-- C5: when a poll detects a marker change and `is_binary` is now true,
the session yields exactly the one updating event and returns — no
content event, whatever `read`/`render` would have said and whatever
observations would have followed (app.py lines 204-206). -/
theorem binary_transition_ends_session (quiet : Bool) (fn : String)
    (last m : Nat) (rd : Except Unit String) (rr : Except Nat String)
    (rest : List PollObs) (hm : m ≠ last) :
    genLoop quiet fn last (⟨false, .ok m, true, rd, rr⟩ :: rest)
      = ⟨[Event.updating], if quiet then [] else [changeMessage fn],
         Outcome.terminated⟩ := by
  simp [genLoop, hm]

/-- Witness for C5 at a concrete poll. -/
theorem binary_transition_ends_session_witness :
    genLoop false "img.png" 1 [⟨false, .ok 2, true, .ok "x", .ok "y"⟩]
      = ⟨[Event.updating], [changeMessage "img.png"], Outcome.terminated⟩ :=
  binary_transition_ends_session false "img.png" 1 2 (.ok "x") (.ok "y") []
    (by decide)

/-- C6: a refresh request that passes the autorefresh and normalization
checks while `self._shutdown_event` is `None` (no run active) or already
set returns the empty body immediately — no generator is started, so no
events are ever emitted (app.py lines 182-185). -/
theorem draining_refresh_empty_body (e : RefreshEnv)
    (ha : e.autorefresh = true) (hn : e.normalized = e.subpath)
    (hs : e.shutdownEvent = none ∨ e.shutdownEvent = some true) :
    render_refresh e = RefreshResponse.emptyBody := by
  cases hs with
  | inl h => simp [render_refresh, ha, hn, h]
  | inr h => simp [render_refresh, ha, hn, h]

/-- Witness for C6 at a concrete request. -/
theorem draining_refresh_empty_body_witness :
    render_refresh ⟨true, false, "p", "p", "p", some true, .ok 0, []⟩
      = RefreshResponse.emptyBody :=
  draining_refresh_empty_body ⟨true, false, "p", "p", "p", some true, .ok 0, []⟩
    rfl rfl (Or.inr rfl)

/-- C7: when the renderer fails on the poll after a detected change, the
session is over regardless of what later polls would have shown (no
retry) and yields no content event; a 403 failure raises through
`abort(403)`, whose registered application handler is the dedicated
rate-limit page with status 403, while any other status re-raises
uncaught (app.py lines 212-218 and 121, 227-231). -/
theorem render_failure_terminal (quiet : Bool) (fn : String)
    (last m status : Nat) (t : String) (rest : List PollObs)
    (hm : m ≠ last) :
    genLoop quiet fn last (⟨false, .ok m, false, .ok t, .error status⟩ :: rest)
        = ⟨[Event.updating], if quiet then [] else [changeMessage fn],
           if status = 403 then Outcome.raisedHTTP403
           else Outcome.raisedHTTPOther status⟩
      ∧ errorHandler403 = HttpResponse.mk (Page.limit false) 403 := by
  refine ⟨?_, rfl⟩
  by_cases h403 : status = 403
  · simp [genLoop, hm, h403]
  · simp [genLoop, hm, h403]

/-- Witness for C7 at concrete polls. -/
theorem render_failure_terminal_witness :
    genLoop false "README.md" 0
        (⟨false, .ok 1, false, .ok "txt", .error 403⟩
          :: [⟨false, .ok 2, false, .ok "txt", .ok "html"⟩])
      = ⟨[Event.updating], [changeMessage "README.md"],
         Outcome.raisedHTTP403⟩ :=
  ((render_failure_terminal false "README.md" 0 1 403 "txt"
      [⟨false, .ok 2, false, .ok "txt", .ok "html"⟩] (by decide)).1).trans
    (by decide)

/-- C9: when the baseline query `last_updated` at session start raises
NotFound (line 188, outside the loop's `try`), the generator yields zero
events and the error propagates into the event-stream response rather
than the generator returning cleanly. -/
theorem baseline_notfound_propagates (quiet : Bool) (fn : String)
    (trace : List PollObs) :
    gen quiet fn (.error ()) trace = ⟨[], [], .raisedNotFound⟩
      ∧ Outcome.raisedNotFound ≠ Outcome.terminated :=
  ⟨rfl, by decide⟩

/-- C10: the event stream and the session's fate are identical for any
two values of the quiet flag over the same observations; quiet only
decides whether the change-detected console line is printed — with
quiet set, nothing is ever printed (app.py lines 198-203). -/
theorem quiet_does_not_change_events (fn : String) (last : Nat)
    (trace : List PollObs) (q1 q2 : Bool) :
    (genLoop q1 fn last trace).events = (genLoop q2 fn last trace).events
      ∧ (genLoop q1 fn last trace).outcome = (genLoop q2 fn last trace).outcome
      ∧ (genLoop true fn last trace).console = [] := by
  induction trace generalizing last with
  | nil => exact ⟨rfl, rfl, rfl⟩
  | cons o rest ih =>
    by_cases hs : o.shutdownSet = true
    · simp [genLoop, hs]
    · simp only [genLoop, if_neg hs]
      cases hlu : o.lastUpdated with
      | error e => exact ⟨rfl, rfl, rfl⟩
      | ok updated =>
        by_cases hu : updated = last
        · simpa [hu] using ih last
        · simp only [if_neg hu]
          by_cases hb : o.isBinary = true
          · simp [hb]
          · simp only [if_neg hb]
            cases hr : o.readResult with
            | error e => simp
            | ok text =>
              cases hrr : o.renderResult with
              | error status =>
                by_cases h403 : status = 403
                · simp [h403]
                · simp [h403]
              | ok html =>
                obtain ⟨he, ho, hc⟩ := ih updated
                exact ⟨by simp [he], by simp [ho], by simp [hc]⟩

/-- C4: while a run is active (`self._shutdown_event` holds an Event —
set or not, any Event object is truthy), a second call to `run` raises
`AlreadyRunningError` inside the `_run_mutex` block and returns the
instance state exactly as it found it: same shutdown signal, same
running state (app.py lines 331-335). -/
theorem second_run_fails_fast (openBrowser : Bool) (s : GripState)
    (b : Bool) (h : s.shutdownEvent = some b) :
    run openBrowser s = RunResult.alreadyRunning s := by
  simp [run, h]

/-- Witness for C4: a second `run` against a running instance (cleared
signal) fails fast with that instance's state untouched. -/
theorem second_run_fails_fast_witness :
    run true ⟨some false, false⟩
      = RunResult.alreadyRunning ⟨some false, false⟩ :=
  second_run_fails_fast true ⟨some false, false⟩ false rfl

/-- C8: whenever `run` proceeds past the mutex (no run was active), the
serving loop's return is followed — in this order — by setting the
Shutdown Signal, joining the browser helper when one was spawned, and
clearing `self._shutdown_event` to `None`; the final state has no
shutdown event, so a subsequent `run` does not raise
`AlreadyRunningError` (app.py lines 342-357). -/
theorem serve_return_runs_teardown (openBrowser : Bool) (s : GripState)
    (h : s.shutdownEvent = none) :
    ∃ final actions, run openBrowser s = RunResult.ok final actions
      ∧ final.shutdownEvent = none
      ∧ List.Sublist
          [RunAction.serveLoop, RunAction.setSignal, RunAction.clearSignal]
          actions
      ∧ (openBrowser = true → List.Sublist
          [RunAction.serveLoop, RunAction.setSignal, RunAction.joinBrowser,
            RunAction.clearSignal] actions)
      ∧ ∀ ob, ∃ final2 actions2,
          run ob final = RunResult.ok final2 actions2 := by
  obtain ⟨se, q⟩ := s
  subst h
  refine ⟨⟨none, q⟩,
    [RunAction.createSignal]
      ++ (if openBrowser then [RunAction.spawnBrowser] else [])
      ++ [RunAction.serveLoop]
      ++ (if q then [] else [RunAction.printShutdown])
      ++ [RunAction.setSignal]
      ++ (if openBrowser then [RunAction.joinBrowser] else [])
      ++ [RunAction.clearSignal],
    rfl, rfl, ?_, ?_, ?_⟩
  · cases openBrowser <;> cases q <;> decide
  · intro hb
    subst hb
    cases q <;> decide
  · intro ob
    exact ⟨⟨none, q⟩, _, rfl⟩

/-- Witness for C8 at a concrete idle instance with a browser helper. -/
theorem serve_return_runs_teardown_witness :
    ∃ final actions, run true ⟨none, false⟩ = RunResult.ok final actions
      ∧ final.shutdownEvent = none
      ∧ List.Sublist
          [RunAction.serveLoop, RunAction.setSignal, RunAction.clearSignal]
          actions
      ∧ (true = true → List.Sublist
          [RunAction.serveLoop, RunAction.setSignal, RunAction.joinBrowser,
            RunAction.clearSignal] actions)
      ∧ ∀ ob, ∃ final2 actions2,
          run ob final = RunResult.ok final2 actions2 :=
  serve_return_runs_teardown true ⟨none, false⟩ rfl

end Grip
